import Mathlib

set_option maxRecDepth 100000

/-!
Verification of the Akari puzzle generator.

This file gives a shallow embedding, in Lean 4, of the puzzle-generation
core of the repository: the two generator modules `akari_generator.py`
(database flavour, embedded in namespace `AkariGen`) and
`akari_generator_api.py` (API flavour, embedded in namespace `AkariGenAPI`).

Modelling conventions:
  - A grid cell is `0` (empty), the string `X` (wall), a digit string
    (numbered wall, value carried as a natural number), or any other
    Python value (constructor `Cell.other`).
  - A layout is a `List (List Cell)`, indexed as `layout[y][x]` exactly as
    in the source; `cellAt` returns `Cell.other` out of range (the source
    never indexes out of range on the grids it builds).
  - Randomness is made explicit: every call of `random.random() < ratio`
    is a Boolean oracle draw keyed by the cell position, and every call of
    `random.randint(lo, hi)` consumes a natural-number entropy value `e`
    and returns `lo + e % (hi + 1 - lo)`, which ranges over `[lo, hi]`.
    Theorems quantify over all oracles, covering every RNG behaviour and
    every density-parameter setting.
  - Python float thresholds (0.05, 0.5, 0.85, ...) are modelled as the
    exact rationals they denote, and a comparison `count ⋈ ratio * total`
    or `count / total ⋈ ratio` is written in the equivalent cross
    multiplied integer form `100 * count ⋈ pct * total` (for
    `total > 0`, as in every reachable call).  For the integer counts
    involved (at most a few hundred) the float comparisons of the source
    agree with these exact ones: the compared quantities are at least
    1/20 apart whenever they differ, far above double rounding error.
  - `hashlib.md5` is embedded in full (RFC 1321), and `json.dumps` on the
    nested layout lists is embedded as the exact string it produces.
-/

inductive Cell where
  | empty : Cell
  | wall : Cell
  | num : ℕ → Cell
  | other : Cell
deriving DecidableEq

/-- Read `layout[y][x]`; out-of-range reads give `Cell.other`. -/
def cellAt (layout : List (List Cell)) (x y : ℕ) : Cell :=
  (layout.getD y []).getD x Cell.other

/-- The in-place update `layout[y][x] = c`. -/
def setCell (layout : List (List Cell)) (x y : ℕ) (c : Cell) : List (List Cell) :=
  layout.set y ((layout.getD y []).set x c)

/-- The scan order `for y in range(size): for x in range(size)`, as `(y, x)` pairs. -/
def positions (size : ℕ) : List (ℕ × ℕ) :=
  ((List.range size).map (fun y => (List.range size).map (fun x => (y, x)))).flatten

/-- The four orthogonal offsets `[(-1,0), (1,0), (0,-1), (0,1)]`. -/
def deltas : List (Int × Int) := [(-1, 0), (1, 0), (0, -1), (0, 1)]

/-- One neighbour test of `count_adjacent_whites`: in bounds and empty. -/
def inBoundsWhite (layout : List (List Cell)) (size : ℕ) (nx ny : Int) : Bool :=
  decide (0 ≤ nx) && decide (nx < (size : Int)) && decide (0 ≤ ny) &&
    decide (ny < (size : Int)) && decide (cellAt layout nx.toNat ny.toNat = Cell.empty)

/-- `count_adjacent_whites(layout, x, y, size)` (identical in both modules). -/
def count_adjacent_whites (layout : List (List Cell)) (x y size : ℕ) : ℕ :=
  deltas.countP (fun d => inBoundsWhite layout size ((x : Int) + d.1) ((y : Int) + d.2))

/-- First check of `is_valid_akari_layout`: the cell is `0`, the string `X`,
or a digit string whose value lies in `[0, 4]`. -/
def cellSymbolOK : Cell → Bool
  | Cell.empty => true
  | Cell.wall => true
  | Cell.num n => decide (n ≤ 4)
  | Cell.other => false

/-- Second check of `is_valid_akari_layout`: a numbered cell is at most 4. -/
def cellNumberOK : Cell → Bool
  | Cell.num n => decide (n ≤ 4)
  | _ => true

/-- `is_valid_akari_layout(layout, size)` (identical in both modules). -/
def is_valid_akari_layout (layout : List (List Cell)) (size : ℕ) : Bool :=
  ((List.range size).all fun y => (List.range size).all fun x =>
    cellSymbolOK (cellAt layout x y)) &&
  ((List.range size).all fun y => (List.range size).all fun x =>
    cellNumberOK (cellAt layout x y))

def isEmptyCell : Cell → Bool
  | Cell.empty => true
  | _ => false

def isWallCell : Cell → Bool
  | Cell.wall => true
  | _ => false

def isNumCell : Cell → Bool
  | Cell.num _ => true
  | _ => false

/-- `sum(1 for row in layout for cell in row if p cell)`. -/
def countCells (layout : List (List Cell)) (p : Cell → Bool) : ℕ :=
  (layout.map (fun row => row.countP p)).sum

/-- Per-cell body of the constraint loop of `is_solvable`: a numbered cell
may not exceed the count of its adjacent white cells. -/
def cellConstraintOK (layout : List (List Cell)) (size x y : ℕ) : Bool :=
  match cellAt layout x y with
  | Cell.num n => decide (n ≤ count_adjacent_whites layout x y size)
  | _ => true

/-- `random.randint lo hi` consuming entropy `e`: ranges over `[lo, hi]`. -/
def randint (lo hi e : ℕ) : ℕ := lo + e % (hi + 1 - lo)

/-- Oracle for one sampling pass: `wallCoin y x` decides
`random.random() < wall_ratio` at cell `(y, x)`, `numCoin y x` decides
`random.random() < number_ratio` there, and `pick y x` is the entropy fed
to `random.randint`. -/
structure SamplerOracle where
  wallCoin : ℕ → ℕ → Bool
  numCoin : ℕ → ℕ → Bool
  pick : ℕ → ℕ → ℕ

/-- The wall-placement pass: start from the all-zero grid and mark each
cell as a wall according to its Bernoulli draw.  Each cell is written once
and never read during this pass, so the grid is the comprehension below. -/
def addWallsGrid (coin : ℕ → ℕ → Bool) (size : ℕ) : List (List Cell) :=
  (List.range size).map fun y => (List.range size).map fun x =>
    if coin y x then Cell.wall else Cell.empty

/-- Numbering pass of `akari_generator.generate_random_layout`: scan the
positions in order; a wall whose number coin fires and whose adjacency
capacity is positive becomes `str(random.randint(0, min(capacity, 4)))`. -/
def addNumbersDB (o : SamplerOracle) (size : ℕ) :
    List (ℕ × ℕ) → List (List Cell) → List (List Cell)
  | [], layout => layout
  | p :: ps, layout =>
      addNumbersDB o size ps
        (if cellAt layout p.2 p.1 = Cell.wall ∧ o.numCoin p.1 p.2 = true then
          (if 0 < count_adjacent_whites layout p.2 p.1 size then
            setCell layout p.2 p.1
              (Cell.num (randint 0 (min (count_adjacent_whites layout p.2 p.1 size) 4)
                (o.pick p.1 p.2)))
          else layout)
        else layout)

/-- The `walls_with_adjacent_whites` collection pass of
`akari_generator_api.generate_random_layout`: entries are `(x, y, capacity)`. -/
def collectNumberableWalls (layout : List (List Cell)) (size : ℕ) : List (ℕ × ℕ × ℕ) :=
  (positions size).filterMap fun p =>
    if cellAt layout p.2 p.1 = Cell.wall then
      (if 0 < count_adjacent_whites layout p.2 p.1 size then
        some (p.2, p.1, count_adjacent_whites layout p.2 p.1 size)
      else none)
    else none

/-- Numbering pass of the API module: each collected wall whose coin fires
becomes `str(random.randint(1, min(capacity, 4)))`. -/
def addNumbersAPI (o : SamplerOracle) :
    List (ℕ × ℕ × ℕ) → List (List Cell) → List (List Cell)
  | [], layout => layout
  | w :: ws, layout =>
      addNumbersAPI o ws
        (if o.numCoin w.2.1 w.1 = true then
          setCell layout w.1 w.2.1 (Cell.num (randint 1 (min w.2.2 4) (o.pick w.2.1 w.1)))
        else layout)

namespace AkariGen

/-- `akari_generator.AkariPuzzleGenerator.generate_random_layout`. -/
def generate_random_layout (size : ℕ) (o : SamplerOracle) : List (List Cell) :=
  addNumbersDB o size (positions size) (addWallsGrid o.wallCoin size)

/-- `akari_generator.AkariPuzzleGenerator.is_solvable`. -/
def is_solvable (layout : List (List Cell)) (size : ℕ) : Bool :=
  decide (size ≤ countCells layout isEmptyCell) &&
  ((List.range size).all fun y => (List.range size).all fun x =>
    cellConstraintOK layout size x y)

end AkariGen

namespace AkariGenAPI

/-- `akari_generator_api.AkariPuzzleGeneratorAPI.generate_random_layout`. -/
def generate_random_layout (size : ℕ) (o : SamplerOracle) : List (List Cell) :=
  addNumbersAPI o (collectNumberableWalls (addWallsGrid o.wallCoin size) size)
    (addWallsGrid o.wallCoin size)

end AkariGenAPI

/-- Value of a numbered cell, when the cell is one. -/
def cellNumValue : Cell → Option ℕ
  | Cell.num n => some n
  | _ => none

/-- The `numbered_cells` list of the API `is_solvable`: `(x, y, value)`
triples collected in scan order. -/
def numberedCellsList (layout : List (List Cell)) (size : ℕ) : List (ℕ × ℕ × ℕ) :=
  (positions size).filterMap fun p =>
    (cellNumValue (cellAt layout p.2 p.1)).map fun n => (p.2, p.1, n)

/-- Numbered-cell values read off the grid in scan order (the
`number_counts` and `numbers` collections iterate these values). -/
def numbersList (layout : List (List Cell)) (size : ℕ) : List ℕ :=
  (positions size).filterMap fun p => cellNumValue (cellAt layout p.2 p.1)

/-- Numbered-cell values read row by row (`for row in layout for cell in row`). -/
def rowNumbers (layout : List (List Cell)) : List ℕ :=
  (layout.map (fun row => row.filterMap cellNumValue)).flatten

/-- The `white_positions` list of `_has_connected_white_cells`: `(x, y)`. -/
def whitePositions (layout : List (List Cell)) (size : ℕ) : List (ℕ × ℕ) :=
  (positions size).filterMap fun p =>
    if cellAt layout p.2 p.1 = Cell.empty then some (p.2, p.1) else none

/-- Does some orthogonal neighbour hold a numbered wall? (inner loop of
`_has_connected_white_cells`). -/
def hasNumberedNeighbor (layout : List (List Cell)) (size x y : ℕ) : Bool :=
  deltas.any fun d =>
    decide (0 ≤ (x : Int) + d.1) && decide ((x : Int) + d.1 < (size : Int)) &&
    decide (0 ≤ (y : Int) + d.2) && decide ((y : Int) + d.2 < (size : Int)) &&
    isNumCell (cellAt layout ((x : Int) + d.1).toNat ((y : Int) + d.2).toNat)

namespace AkariGenAPI

/-- `_has_connected_white_cells(layout, size)`. -/
def has_connected_white_cells (layout : List (List Cell)) (size : ℕ) : Bool :=
  let wp := whitePositions layout size
  if wp.isEmpty then false
  else
    let connected := wp.countP fun p => hasNumberedNeighbor layout size p.1 p.2
    let minRatioTenths := if size ≤ 6 then 2 else 3
    decide (minRatioTenths * wp.length ≤ 10 * connected)

/-- `_has_interesting_structure(layout, size)`. -/
def has_interesting_structure (layout : List (List Cell)) (size : ℕ) : Bool :=
  let nums := numbersList layout size
  decide (1 ≤ nums.dedup.length) &&
  (if 8 ≤ size then nums.any (fun n => decide (2 ≤ n)) else true) &&
  (decide (1 ≤ nums.length) && decide (nums.length ≤ size * 2))

/-- `akari_generator_api.AkariPuzzleGeneratorAPI.is_solvable`. -/
def is_solvable (layout : List (List Cell)) (size : ℕ) : Bool :=
  let white := countCells layout isEmptyCell
  let total := size * size
  decide (size ≤ white) &&
  decide (100 * white ≤ 85 * total) &&
  decide (1 ≤ (numberedCellsList layout size).length) &&
  ((numberedCellsList layout size).all fun w =>
    decide (w.2.2 ≤ count_adjacent_whites layout w.1 w.2.1 size) &&
    !(decide (w.2.2 = 0) && decide (0 < count_adjacent_whites layout w.1 w.2.1 size))) &&
  has_connected_white_cells layout size &&
  (decide (5 * total ≤ 100 * countCells layout isWallCell) &&
    decide (100 * countCells layout isWallCell ≤ 50 * total)) &&
  has_interesting_structure layout size

/-- `_validate_puzzle_quality(layout, size, difficulty)`. -/
def validate_puzzle_quality (layout : List (List Cell)) (size : ℕ)
    (difficulty : String) : Bool :=
  let white := countCells layout isEmptyCell
  let wallX := countCells layout isWallCell
  let numbered := countCells layout isNumCell
  let total := size * size
  let diffOK : Bool :=
    if difficulty = "easy" then
      decide (50 * total ≤ 100 * white) && decide (1 ≤ numbered)
    else if difficulty = "medium" then
      decide (40 * total ≤ 100 * white) && decide (2 ≤ numbered)
    else if difficulty = "hard" then
      decide (30 * total ≤ 100 * white) && decide (3 ≤ numbered)
    else if difficulty = "expert" then
      decide (25 * total ≤ 100 * white) && decide (4 ≤ numbered)
    else true
  diffOK &&
  (if 8 ≤ size then decide (2 ≤ (rowNumbers layout).dedup.length) else true) &&
  (decide (15 * total ≤ 100 * wallX) && decide (100 * wallX ≤ 50 * total))

end AkariGenAPI

/-! ### Grid serialization and fingerprint (json.dumps + hashlib.md5) -/

/-- JSON form of one cell as produced by `json.dumps`. -/
def cellToJson : Cell → String
  | Cell.empty => "0"
  | Cell.wall => "\"X\""
  | Cell.num n => "\"" ++ toString n ++ "\""
  | Cell.other => "null"

/-- `json.dumps(layout, sort_keys=True)` on the nested lists (the default
separators put a comma and a space between elements; sorting keys is a
no-op on lists). -/
def layoutToJson (layout : List (List Cell)) : String :=
  "[" ++ String.intercalate ", "
    (layout.map fun row =>
      "[" ++ String.intercalate ", " (row.map cellToJson) ++ "]") ++ "]"

/-- UTF-8 bytes of an ASCII string (all grid serializations are ASCII). -/
def strBytes (s : String) : List ℕ := s.data.map Char.toNat

/-- The 64 MD5 sine-table constants (RFC 1321). -/
def md5K : List ℕ :=
  [0xd76aa478, 0xe8c7b756, 0x242070db, 0xc1bdceee,
   0xf57c0faf, 0x4787c62a, 0xa8304613, 0xfd469501,
   0x698098d8, 0x8b44f7af, 0xffff5bb1, 0x895cd7be,
   0x6b901122, 0xfd987193, 0xa679438e, 0x49b40821,
   0xf61e2562, 0xc040b340, 0x265e5a51, 0xe9b6c7aa,
   0xd62f105d, 0x02441453, 0xd8a1e681, 0xe7d3fbc8,
   0x21e1cde6, 0xc33707d6, 0xf4d50d87, 0x455a14ed,
   0xa9e3e905, 0xfcefa3f8, 0x676f02d9, 0x8d2a4c8a,
   0xfffa3942, 0x8771f681, 0x6d9d6122, 0xfde5380c,
   0xa4beea44, 0x4bdecfa9, 0xf6bb4b60, 0xbebfbc70,
   0x289b7ec6, 0xeaa127fa, 0xd4ef3085, 0x04881d05,
   0xd9d4d039, 0xe6db99e5, 0x1fa27cf8, 0xc4ac5665,
   0xf4292244, 0x432aff97, 0xab9423a7, 0xfc93a039,
   0x655b59c3, 0x8f0ccc92, 0xffeff47d, 0x85845dd1,
   0x6fa87e4f, 0xfe2ce6e0, 0xa3014314, 0x4e0811a1,
   0xf7537e82, 0xbd3af235, 0x2ad7d2bb, 0xeb86d391]

/-- The 64 MD5 per-round rotation amounts. -/
def md5S : List ℕ :=
  [7, 12, 17, 22, 7, 12, 17, 22, 7, 12, 17, 22, 7, 12, 17, 22,
   5, 9, 14, 20, 5, 9, 14, 20, 5, 9, 14, 20, 5, 9, 14, 20,
   4, 11, 16, 23, 4, 11, 16, 23, 4, 11, 16, 23, 4, 11, 16, 23,
   6, 10, 15, 21, 6, 10, 15, 21, 6, 10, 15, 21, 6, 10, 15, 21]

def w32 (x : ℕ) : ℕ := x % 4294967296

def bnot32 (x : ℕ) : ℕ := 4294967295 ^^^ x

def rotl32 (x s : ℕ) : ℕ := w32 ((x <<< s) ||| (x >>> (32 - s)))

def md5Fb (b c d : ℕ) : ℕ := (b &&& c) ||| (bnot32 b &&& d)

def md5Gb (b c d : ℕ) : ℕ := (d &&& b) ||| (bnot32 d &&& c)

def md5Hb (b c d : ℕ) : ℕ := b ^^^ c ^^^ d

def md5Ib (b c d : ℕ) : ℕ := c ^^^ (b ||| bnot32 d)

def md5Step (M : List ℕ) (st : ℕ × ℕ × ℕ × ℕ) (i : ℕ) : ℕ × ℕ × ℕ × ℕ :=
  let a := st.1
  let b := st.2.1
  let c := st.2.2.1
  let d := st.2.2.2
  let f := if i < 16 then md5Fb b c d else if i < 32 then md5Gb b c d
           else if i < 48 then md5Hb b c d else md5Ib b c d
  let g := if i < 16 then i else if i < 32 then (5 * i + 1) % 16
           else if i < 48 then (3 * i + 5) % 16 else (7 * i) % 16
  let tmp := w32 (a + f + md5K.getD i 0 + M.getD g 0)
  (d, w32 (b + rotl32 tmp (md5S.getD i 0)), b, c)

def md5Block (st : ℕ × ℕ × ℕ × ℕ) (block : List ℕ) : ℕ × ℕ × ℕ × ℕ :=
  let M := (List.range 16).map fun j =>
    block.getD (4 * j) 0 + 256 * block.getD (4 * j + 1) 0 +
      65536 * block.getD (4 * j + 2) 0 + 16777216 * block.getD (4 * j + 3) 0
  let fin := (List.range 64).foldl (md5Step M) st
  (w32 (st.1 + fin.1), w32 (st.2.1 + fin.2.1),
   w32 (st.2.2.1 + fin.2.2.1), w32 (st.2.2.2 + fin.2.2.2))

/-- MD5 padding: a 0x80 byte, zeros to 56 mod 64, the bit length in 8
little-endian bytes. -/
def md5Pad (msg : List ℕ) : List ℕ :=
  let bitLen := 8 * msg.length
  let zeros := (120 - (msg.length + 1) % 64) % 64
  msg ++ [128] ++ List.replicate zeros 0 ++
    [bitLen % 256, bitLen / 256 % 256, bitLen / 65536 % 256, bitLen / 16777216 % 256,
     bitLen / 4294967296 % 256, bitLen / 1099511627776 % 256,
     bitLen / 281474976710656 % 256, bitLen / 72057594037927936 % 256]

def wordLEBytes (w : ℕ) : List ℕ := [w % 256, w / 256 % 256, w / 65536 % 256, w / 16777216 % 256]

/-- The 16 digest bytes of MD5. -/
def md5Digest (msg : List ℕ) : List ℕ :=
  let padded := md5Pad msg
  let fin := (List.range (padded.length / 64)).foldl
    (fun st i => md5Block st ((padded.drop (64 * i)).take 64))
    (0x67452301, 0xefcdab89, 0x98badcfe, 0x10325476)
  wordLEBytes fin.1 ++ wordLEBytes fin.2.1 ++ wordLEBytes fin.2.2.1 ++ wordLEBytes fin.2.2.2

def hexDigitChars : List Char := "0123456789abcdef".data

def byteToHexChars (b : ℕ) : List Char :=
  [hexDigitChars.getD (b / 16 % 16) '0', hexDigitChars.getD (b % 16) '0']

/-- The characters of `hashlib.md5(msg).hexdigest()`. -/
def md5HexChars (msg : List ℕ) : List Char :=
  ((md5Digest msg).map byteToHexChars).flatten

/-- `generate_seed(layout)` (identical in both modules):
`hashlib.md5(json.dumps(layout, sort_keys=True).encode()).hexdigest()[:12]`. -/
def generate_seed (layout : List (List Cell)) : String :=
  String.mk ((md5HexChars (strBytes (layoutToJson layout))).take 12)

/-! ### Difficulty profiles and the generation loop -/

/-- One entry of the `difficulty_params` dictionaries.  The two density
floats are recorded in hundredths (0.2 is stored as 20, and so on); they
only parameterize the Bernoulli draws that the sampling oracle absorbs. -/
structure DifficultyParams where
  wallRatioPct : ℕ
  numberRatioPct : ℕ
  maxAttempts : ℕ
deriving DecidableEq

/-- An accepted puzzle, as the dictionary built by `generate_puzzle`. -/
structure Puzzle where
  layout : List (List Cell)
  seed : String
  size : ℕ
  difficulty : String
deriving DecidableEq

namespace AkariGen

/-- The `difficulty_params` table of `akari_generator.py`.
`difficulty_params.get(difficulty, difficulty_params[medium])` falls back
to the medium entry on any unknown key. -/
def difficulty_params (difficulty : String) : DifficultyParams :=
  if difficulty = "easy" then ⟨20, 30, 50⟩
  else if difficulty = "medium" then ⟨25, 40, 100⟩
  else if difficulty = "hard" then ⟨30, 50, 200⟩
  else if difficulty = "expert" then ⟨35, 60, 300⟩
  else ⟨25, 40, 100⟩

/-- The attempt loop of `generate_puzzle`: sample, gate on
`is_valid_akari_layout` and `is_solvable`, return the first acceptance. -/
def try_attempts (size : ℕ) (difficulty : String) (o : ℕ → SamplerOracle) :
    List ℕ → Option Puzzle
  | [] => none
  | a :: rest =>
      let layout := generate_random_layout size (o a)
      if is_valid_akari_layout layout size && is_solvable layout size then
        some ⟨layout, generate_seed layout, size, difficulty⟩
      else try_attempts size difficulty o rest

/-- `akari_generator.AkariPuzzleGenerator.generate_puzzle`.  The second
component is the list of warnings logged (one on exhaustion, none on
success); `o a` is the sampling oracle consumed by attempt `a`. -/
def generate_puzzle (size : ℕ) (difficulty : String) (o : ℕ → SamplerOracle) :
    Option Puzzle × List String :=
  let params := difficulty_params difficulty
  match try_attempts size difficulty o (List.range params.maxAttempts) with
  | some p => (some p, [])
  | none => (none, ["Failed to generate " ++ difficulty ++ " " ++ toString size ++ "x" ++
      toString size ++ " puzzle after " ++ toString params.maxAttempts ++ " attempts"])

end AkariGen

namespace AkariGenAPI

/-- The `difficulty_params` table of `akari_generator_api.py`, with the
same fallback-to-medium lookup. -/
def difficulty_params (difficulty : String) : DifficultyParams :=
  if difficulty = "easy" then ⟨20, 40, 100⟩
  else if difficulty = "medium" then ⟨25, 50, 150⟩
  else if difficulty = "hard" then ⟨30, 60, 200⟩
  else if difficulty = "expert" then ⟨35, 70, 300⟩
  else ⟨25, 50, 150⟩

/-- The attempt loop of the API `generate_puzzle`: sample, gate on
`is_valid_akari_layout`, `is_solvable` and `_validate_puzzle_quality`. -/
def try_attempts (size : ℕ) (difficulty : String) (o : ℕ → SamplerOracle) :
    List ℕ → Option Puzzle
  | [] => none
  | a :: rest =>
      let layout := generate_random_layout size (o a)
      if is_valid_akari_layout layout size && is_solvable layout size &&
          validate_puzzle_quality layout size difficulty then
        some ⟨layout, generate_seed layout, size, difficulty⟩
      else try_attempts size difficulty o rest

/-- `akari_generator_api.AkariPuzzleGeneratorAPI.generate_puzzle`. -/
def generate_puzzle (size : ℕ) (difficulty : String) (o : ℕ → SamplerOracle) :
    Option Puzzle × List String :=
  let params := difficulty_params difficulty
  match try_attempts size difficulty o (List.range params.maxAttempts) with
  | some p => (some p, [])
  | none => (none, ["Failed to generate " ++ difficulty ++ " " ++ toString size ++ "x" ++
      toString size ++ " puzzle after " ++ toString params.maxAttempts ++ " attempts"])

end AkariGenAPI

/-! ### The batch orchestrator of akari_generator.py -/

/-- The counter dictionaries of `generate_batch`, modelled as total maps
(the source reads a key only after assigning it). -/
structure BatchResults where
  totalGenerated : ℕ
  totalSaved : ℕ
  failed : ℕ
  bySize : ℕ → ℕ
  byDifficulty : String → ℕ

/-- Dictionary assignment `f[k] = v`. -/
def setCounter {α : Type} [DecidableEq α] (f : α → ℕ) (k : α) (v : ℕ) : α → ℕ :=
  fun k2 => if k2 = k then v else f k2

namespace AkariGen

/-- Body of the innermost batch loop: account one `generate_puzzle`
outcome, then hand an accepted puzzle to `save_puzzle_to_db` (modelled by
`sink`, returning its success flag). -/
def batch_one (sink : Puzzle → Bool) (size : ℕ) (difficulty : String)
    (res : BatchResults) (pz : Option Puzzle) : BatchResults :=
  match pz with
  | some p =>
      let res1 : BatchResults :=
        { res with
          totalGenerated := res.totalGenerated + 1
          bySize := setCounter res.bySize size (res.bySize size + 1)
          byDifficulty := setCounter res.byDifficulty difficulty
            (res.byDifficulty difficulty + 1) }
      if sink p then { res1 with totalSaved := res1.totalSaved + 1 }
      else { res1 with failed := res1.failed + 1 }
  | none => { res with failed := res.failed + 1 }

/-- `akari_generator.AkariPuzzleGenerator.generate_batch`.  The oracle
family `O size difficulty i` feeds the RNG of the i-th `generate_puzzle`
call for that combination; `sink` is `save_puzzle_to_db`. -/
def generate_batch (sizes : List ℕ) (difficulties : List String) (countPerSize : ℕ)
    (O : ℕ → String → ℕ → ℕ → SamplerOracle) (sink : Puzzle → Bool) : BatchResults :=
  sizes.foldl
    (fun res size =>
      difficulties.foldl
        (fun res difficulty =>
          (List.range countPerSize).foldl
            (fun res i => batch_one sink size difficulty res
              (generate_puzzle size difficulty (O size difficulty i)).1)
            { res with byDifficulty := setCounter res.byDifficulty difficulty 0 })
        { res with bySize := setCounter res.bySize size 0 })
    { totalGenerated := 0, totalSaved := 0, failed := 0,
      bySize := fun _ => 0, byDifficulty := fun _ => 0 }

end AkariGen

/-! ### Basic facts about grids, indexing and updates -/

/-- The grid is a `size × size` rectangle of rows. -/
def Shaped (layout : List (List Cell)) (size : ℕ) : Prop :=
  layout.length = size ∧ ∀ row ∈ layout, row.length = size

lemma mem_positions {size : ℕ} {p : ℕ × ℕ} :
    p ∈ positions size ↔ p.1 < size ∧ p.2 < size := by
  obtain ⟨y, x⟩ := p
  simp only [positions, List.mem_flatten, List.mem_map, List.mem_range]
  constructor
  · rintro ⟨l, ⟨y2, hy2, rfl⟩, hmem⟩
    obtain ⟨x2, hx2, hx2e⟩ := List.mem_map.mp hmem
    obtain ⟨rfl, rfl⟩ := Prod.mk.injEq .. ▸ hx2e
    exact ⟨hy2, List.mem_range.mp hx2⟩
  · rintro ⟨hy, hx⟩
    exact ⟨_, ⟨y, hy, rfl⟩, List.mem_map.mpr ⟨x, List.mem_range.mpr hx, rfl⟩⟩

lemma shaped_addWallsGrid (c : ℕ → ℕ → Bool) (size : ℕ) :
    Shaped (addWallsGrid c size) size := by
  refine ⟨by simp [addWallsGrid], ?_⟩
  intro row hrow
  simp only [addWallsGrid, List.mem_map] at hrow
  obtain ⟨y, _, rfl⟩ := hrow
  simp

lemma cellAt_addWallsGrid {c : ℕ → ℕ → Bool} {size x y : ℕ}
    (hx : x < size) (hy : y < size) :
    cellAt (addWallsGrid c size) x y = (if c y x then Cell.wall else Cell.empty) := by
  have hrow : (addWallsGrid c size).getD y [] =
      (List.range size).map (fun x => if c y x then Cell.wall else Cell.empty) := by
    unfold addWallsGrid
    rw [List.getD_eq_getElem?_getD, List.getElem?_map, List.getElem?_range hy]
    rfl
  unfold cellAt
  rw [hrow, List.getD_eq_getElem?_getD, List.getElem?_map, List.getElem?_range hx]
  rfl

lemma cellAt_out {layout : List (List Cell)} {size x y : ℕ} (h : Shaped layout size)
    (hxy : size ≤ x ∨ size ≤ y) : cellAt layout x y = Cell.other := by
  rcases hxy with hx | hy
  · unfold cellAt
    rcases Nat.lt_or_ge y layout.length with hylen | hylen
    · have hrow : layout.getD y [] = layout[y] := by
        rw [List.getD_eq_getElem?_getD, List.getElem?_eq_getElem hylen, Option.getD_some]
      rw [hrow]
      exact List.getD_eq_default _ _ ((h.2 _ (List.getElem_mem hylen)).le.trans hx)
    · rw [List.getD_eq_default _ _ hylen]
      exact List.getD_eq_default _ _ (Nat.zero_le x)
  · unfold cellAt
    rw [List.getD_eq_default _ _ (h.1.le.trans hy)]
    exact List.getD_eq_default _ _ (Nat.zero_le x)

lemma shaped_setCell {layout : List (List Cell)} {size x y : ℕ} (c : Cell)
    (h : Shaped layout size) : Shaped (setCell layout x y c) size := by
  rcases Nat.lt_or_ge y layout.length with hylen | hylen
  · refine ⟨by simp [setCell, h.1], ?_⟩
    intro row hrow
    rcases List.mem_or_eq_of_mem_set hrow with hm | rfl
    · exact h.2 _ hm
    · have : layout.getD y [] = layout[y] := by
        rw [List.getD_eq_getElem?_getD, List.getElem?_eq_getElem hylen, Option.getD_some]
      rw [this, List.length_set]
      exact h.2 _ (List.getElem_mem hylen)
  · unfold setCell
    rw [List.set_eq_of_length_le hylen]
    exact h

lemma cellAt_setCell_self {layout : List (List Cell)} {size x y : ℕ} {c : Cell}
    (h : Shaped layout size) (hx : x < size) (hy : y < size) :
    cellAt (setCell layout x y c) x y = c := by
  have hylen : y < layout.length := h.1 ▸ hy
  have hrow : layout.getD y [] = layout[y] := by
    rw [List.getD_eq_getElem?_getD, List.getElem?_eq_getElem hylen, Option.getD_some]
  have hxlen : x < (layout.getD y []).length := by
    rw [hrow]; exact (h.2 _ (List.getElem_mem hylen)).symm ▸ hx
  have h1 : (setCell layout x y c).getD y [] = (layout.getD y []).set x c := by
    unfold setCell
    rw [List.getD_eq_getElem?_getD, List.getElem?_set_self hylen, Option.getD_some]
  unfold cellAt
  rw [h1, List.getD_eq_getElem?_getD, List.getElem?_set_self hxlen, Option.getD_some]

lemma cellAt_setCell_ne {layout : List (List Cell)} {x y x2 y2 : ℕ} {c : Cell}
    (hne : x2 ≠ x ∨ y2 ≠ y) :
    cellAt (setCell layout x y c) x2 y2 = cellAt layout x2 y2 := by
  rcases Nat.lt_or_ge y layout.length with hylen | hylen
  · by_cases hyy : y2 = y
    · subst hyy
      have hxx : x2 ≠ x := hne.resolve_right (fun hc => hc rfl)
      have h1 : (setCell layout x y2 c).getD y2 [] = (layout.getD y2 []).set x c := by
        unfold setCell
        rw [List.getD_eq_getElem?_getD, List.getElem?_set_self hylen, Option.getD_some]
      unfold cellAt
      rw [h1, List.getD_eq_getElem?_getD, List.getElem?_set_ne (fun hc => hxx hc.symm),
        ← List.getD_eq_getElem?_getD]
    · have h1 : (setCell layout x y c).getD y2 [] = layout.getD y2 [] := by
        unfold setCell
        rw [List.getD_eq_getElem?_getD, List.getElem?_set_ne (fun hc => hyy hc.symm),
          ← List.getD_eq_getElem?_getD]
      unfold cellAt
      rw [h1]
  · unfold setCell
    rw [List.set_eq_of_length_le hylen]

lemma randint_le (m e : ℕ) : randint 0 m e ≤ m := by
  unfold randint
  rw [Nat.zero_add, Nat.sub_zero]
  exact Nat.lt_succ_iff.mp (Nat.mod_lt e (Nat.succ_pos m))

lemma randint_one_bounds (m e : ℕ) (hm : 0 < m) :
    1 ≤ randint 1 m e ∧ randint 1 m e ≤ m := by
  unfold randint
  have h : e % (m + 1 - 1) < m + 1 - 1 := Nat.mod_lt e (by omega)
  omega

lemma count_adjacent_whites_congr {layout layout2 : List (List Cell)} {x y size : ℕ}
    (h : ∀ a b, cellAt layout a b = Cell.empty ↔ cellAt layout2 a b = Cell.empty) :
    count_adjacent_whites layout x y size = count_adjacent_whites layout2 x y size := by
  unfold count_adjacent_whites
  refine List.countP_congr ?_
  intro d _
  unfold inBoundsWhite
  simp only [Bool.and_eq_true, decide_eq_true_eq]
  constructor
  · rintro ⟨⟨⟨⟨h1, h2⟩, h3⟩, h4⟩, h5⟩
    exact ⟨⟨⟨⟨h1, h2⟩, h3⟩, h4⟩, (h _ _).mp h5⟩
  · rintro ⟨⟨⟨⟨h1, h2⟩, h3⟩, h4⟩, h5⟩
    exact ⟨⟨⟨⟨h1, h2⟩, h3⟩, h4⟩, (h _ _).mpr h5⟩

/-! ### Invariants of the numbering passes -/

/-- Invariant of the numbering passes over `base`, the wall-placement
grid: the shape is preserved, the emptiness pattern never changes (walls
are overwritten only by numbers, both non-empty), and every numbered cell
written so far carries a value in `[lo, min(capacity, 4)]`, the capacity
being counted on `base`. -/
structure NumPassInv (lo : ℕ) (base layout : List (List Cell)) (size : ℕ) : Prop where
  shaped : Shaped layout size
  emptyIff : ∀ a b, cellAt layout a b = Cell.empty ↔ cellAt base a b = Cell.empty
  cells : ∀ a b, a < size → b < size →
    cellAt layout a b = Cell.empty ∨ cellAt layout a b = Cell.wall ∨
      ∃ n, cellAt layout a b = Cell.num n ∧ lo ≤ n ∧
        n ≤ min (count_adjacent_whites base a b size) 4

lemma numPassInv_addWallsGrid (lo : ℕ) (c : ℕ → ℕ → Bool) (size : ℕ) :
    NumPassInv lo (addWallsGrid c size) (addWallsGrid c size) size := by
  refine ⟨shaped_addWallsGrid c size, fun a b => Iff.rfl, ?_⟩
  intro a b ha hb
  rw [cellAt_addWallsGrid ha hb]
  by_cases h : c b a
  · rw [if_pos h]; exact Or.inr (Or.inl rfl)
  · rw [if_neg h]; exact Or.inl rfl

lemma numPassInv_write {lo : ℕ} {base layout : List (List Cell)} {size x y n : ℕ}
    (inv : NumPassInv lo base layout size) (hx : x < size) (hy : y < size)
    (hne : cellAt layout x y ≠ Cell.empty)
    (hlo : lo ≤ n) (hn : n ≤ min (count_adjacent_whites base x y size) 4) :
    NumPassInv lo base (setCell layout x y (Cell.num n)) size := by
  refine ⟨shaped_setCell _ inv.shaped, ?_, ?_⟩
  · intro a b
    by_cases hab : a = x ∧ b = y
    · obtain ⟨rfl, rfl⟩ := hab
      rw [cellAt_setCell_self inv.shaped hx hy]
      constructor
      · intro hc; exact absurd hc (by simp)
      · intro hc; exact absurd ((inv.emptyIff a b).mpr hc) hne
    · rw [cellAt_setCell_ne (not_and_or.mp hab)]
      exact inv.emptyIff a b
  · intro a b ha hb
    by_cases hab : a = x ∧ b = y
    · obtain ⟨rfl, rfl⟩ := hab
      rw [cellAt_setCell_self inv.shaped hx hy]
      exact Or.inr (Or.inr ⟨n, rfl, hlo, hn⟩)
    · rw [cellAt_setCell_ne (not_and_or.mp hab)]
      exact inv.cells a b ha hb

lemma numPassInv_addNumbersDB {base : List (List Cell)} (o : SamplerOracle) (size : ℕ) :
    ∀ (ps : List (ℕ × ℕ)) (layout : List (List Cell)),
      (∀ p ∈ ps, p.1 < size ∧ p.2 < size) → NumPassInv 0 base layout size →
      NumPassInv 0 base (addNumbersDB o size ps layout) size := by
  intro ps
  induction ps with
  | nil => intro layout _ inv; exact inv
  | cons p ps ih =>
      intro layout hmem inv
      simp only [addNumbersDB]
      refine ih _ (fun q hq => hmem q (List.mem_cons_of_mem p hq)) ?_
      by_cases h1 : cellAt layout p.2 p.1 = Cell.wall ∧ o.numCoin p.1 p.2 = true
      · rw [if_pos h1]
        by_cases h2 : 0 < count_adjacent_whites layout p.2 p.1 size
        · rw [if_pos h2]
          obtain ⟨hy, hx⟩ := hmem p (List.mem_cons_self p ps)
          refine numPassInv_write inv hx hy (by rw [h1.1]; simp) (Nat.zero_le _) ?_
          have hcong : count_adjacent_whites layout p.2 p.1 size =
              count_adjacent_whites base p.2 p.1 size :=
            count_adjacent_whites_congr inv.emptyIff
          rw [← hcong]
          exact randint_le _ _
        · rw [if_neg h2]; exact inv
      · rw [if_neg h1]; exact inv

lemma mem_collectNumberableWalls {base : List (List Cell)} {size : ℕ} {w : ℕ × ℕ × ℕ}
    (h : w ∈ collectNumberableWalls base size) :
    w.1 < size ∧ w.2.1 < size ∧ cellAt base w.1 w.2.1 = Cell.wall ∧
      w.2.2 = count_adjacent_whites base w.1 w.2.1 size ∧ 0 < w.2.2 := by
  unfold collectNumberableWalls at h
  rw [List.mem_filterMap] at h
  obtain ⟨p, hp, hf⟩ := h
  obtain ⟨hy, hx⟩ := mem_positions.mp hp
  by_cases h1 : cellAt base p.2 p.1 = Cell.wall
  · rw [if_pos h1] at hf
    by_cases h2 : 0 < count_adjacent_whites base p.2 p.1 size
    · rw [if_pos h2] at hf
      cases hf
      exact ⟨hx, hy, h1, rfl, h2⟩
    · rw [if_neg h2] at hf; cases hf
  · rw [if_neg h1] at hf; cases hf

lemma numPassInv_addNumbersAPI {base : List (List Cell)} (o : SamplerOracle) (size : ℕ) :
    ∀ (ws : List (ℕ × ℕ × ℕ)) (layout : List (List Cell)),
      (∀ w ∈ ws, w.1 < size ∧ w.2.1 < size ∧ cellAt base w.1 w.2.1 = Cell.wall ∧
        w.2.2 = count_adjacent_whites base w.1 w.2.1 size ∧ 0 < w.2.2) →
      NumPassInv 1 base layout size →
      NumPassInv 1 base (addNumbersAPI o ws layout) size := by
  intro ws
  induction ws with
  | nil => intro layout _ inv; exact inv
  | cons w ws ih =>
      intro layout hmem inv
      simp only [addNumbersAPI]
      refine ih _ (fun q hq => hmem q (List.mem_cons_of_mem w hq)) ?_
      by_cases h1 : o.numCoin w.2.1 w.1 = true
      · rw [if_pos h1]
        obtain ⟨hx, hy, hwall, hadj, hpos⟩ := hmem w (List.mem_cons_self w ws)
        have hmin : 0 < min w.2.2 4 := lt_min hpos (by norm_num)
        obtain ⟨hlo, hhi⟩ := randint_one_bounds (min w.2.2 4) (o.pick w.2.1 w.1) hmin
        refine numPassInv_write inv hx hy ?_ hlo ?_
        · intro hc
          have hbase := (inv.emptyIff w.1 w.2.1).mp hc
          rw [hwall] at hbase
          exact Cell.noConfusion hbase
        · rw [hadj] at hhi
          rw [hadj]
          exact hhi
      · rw [if_neg h1]; exact inv

/-- The numbering-pass invariant holds of the finished DB-module sample. -/
lemma db_sampler_inv (size : ℕ) (o : SamplerOracle) :
    NumPassInv 0 (addWallsGrid o.wallCoin size)
      (AkariGen.generate_random_layout size o) size :=
  numPassInv_addNumbersDB o size (positions size) _
    (fun _ hp => mem_positions.mp hp)
    (numPassInv_addWallsGrid 0 o.wallCoin size)

/-- The numbering-pass invariant holds of the finished API-module sample. -/
lemma api_sampler_inv (size : ℕ) (o : SamplerOracle) :
    NumPassInv 1 (addWallsGrid o.wallCoin size)
      (AkariGenAPI.generate_random_layout size o) size :=
  numPassInv_addNumbersAPI o size (collectNumberableWalls (addWallsGrid o.wallCoin size) size) _
    (fun _ hw => mem_collectNumberableWalls hw)
    (numPassInv_addWallsGrid 1 o.wallCoin size)

/-- Cell classification of a DB-module sample, capacities counted on the
sample itself. -/
lemma sampler_cells_db (size : ℕ) (o : SamplerOracle) (x y : ℕ)
    (hx : x < size) (hy : y < size) :
    cellAt (AkariGen.generate_random_layout size o) x y = Cell.empty ∨
    cellAt (AkariGen.generate_random_layout size o) x y = Cell.wall ∨
      ∃ n, cellAt (AkariGen.generate_random_layout size o) x y = Cell.num n ∧ n ≤ 4 ∧
        n ≤ count_adjacent_whites (AkariGen.generate_random_layout size o) x y size := by
  have inv := db_sampler_inv size o
  have hcong : count_adjacent_whites (AkariGen.generate_random_layout size o) x y size =
      count_adjacent_whites (addWallsGrid o.wallCoin size) x y size :=
    count_adjacent_whites_congr inv.emptyIff
  rcases inv.cells x y hx hy with h | h | ⟨n, hn, _, hb⟩
  · exact Or.inl h
  · exact Or.inr (Or.inl h)
  · refine Or.inr (Or.inr ⟨n, hn, le_trans hb (min_le_right _ _), ?_⟩)
    rw [hcong]
    exact le_trans hb (min_le_left _ _)

/-- Cell classification of an API-module sample: numbered values moreover
never are 0. -/
lemma sampler_cells_api (size : ℕ) (o : SamplerOracle) (x y : ℕ)
    (hx : x < size) (hy : y < size) :
    cellAt (AkariGenAPI.generate_random_layout size o) x y = Cell.empty ∨
    cellAt (AkariGenAPI.generate_random_layout size o) x y = Cell.wall ∨
      ∃ n, cellAt (AkariGenAPI.generate_random_layout size o) x y = Cell.num n ∧
        1 ≤ n ∧ n ≤ min (count_adjacent_whites (AkariGenAPI.generate_random_layout size o) x y size) 4 := by
  have inv := api_sampler_inv size o
  have hcong : count_adjacent_whites (AkariGenAPI.generate_random_layout size o) x y size =
      count_adjacent_whites (addWallsGrid o.wallCoin size) x y size :=
    count_adjacent_whites_congr inv.emptyIff
  rcases inv.cells x y hx hy with h | h | ⟨n, hn, hlo, hb⟩
  · exact Or.inl h
  · exact Or.inr (Or.inl h)
  · refine Or.inr (Or.inr ⟨n, hn, hlo, ?_⟩)
    rw [hcong]
    exact hb

lemma cellNumberOK_of_symbolOK {c : Cell} (h : cellSymbolOK c = true) :
    cellNumberOK c = true := by
  cases c <;> simp_all [cellSymbolOK, cellNumberOK]

lemma is_valid_of_cells {layout : List (List Cell)} {size : ℕ}
    (h : ∀ x y, x < size → y < size → cellSymbolOK (cellAt layout x y) = true) :
    is_valid_akari_layout layout size = true := by
  unfold is_valid_akari_layout
  rw [Bool.and_eq_true]
  constructor
  · rw [List.all_eq_true]
    intro y hy
    rw [List.all_eq_true]
    intro x hx
    exact h x y (List.mem_range.mp hx) (List.mem_range.mp hy)
  · rw [List.all_eq_true]
    intro y hy
    rw [List.all_eq_true]
    intro x hx
    exact cellNumberOK_of_symbolOK (h x y (List.mem_range.mp hx) (List.mem_range.mp hy))

/-- Every DB-module sample passes the structural validator. -/
lemma is_valid_sampler_db (size : ℕ) (o : SamplerOracle) :
    is_valid_akari_layout (AkariGen.generate_random_layout size o) size = true := by
  refine is_valid_of_cells ?_
  intro x y hx hy
  rcases sampler_cells_db size o x y hx hy with h | h | ⟨n, hn, h4, _⟩
  · rw [h]; rfl
  · rw [h]; rfl
  · rw [hn]
    simpa [cellSymbolOK] using h4

/-- Every API-module sample passes the structural validator. -/
lemma is_valid_sampler_api (size : ℕ) (o : SamplerOracle) :
    is_valid_akari_layout (AkariGenAPI.generate_random_layout size o) size = true := by
  refine is_valid_of_cells ?_
  intro x y hx hy
  rcases sampler_cells_api size o x y hx hy with h | h | ⟨n, hn, _, h4⟩
  · rw [h]; rfl
  · rw [h]; rfl
  · rw [hn]
    simpa [cellSymbolOK] using le_trans h4 (min_le_right _ _)

/-! ### What the acceptance gates guarantee -/

lemma AkariGen_is_solvable_capacity {layout : List (List Cell)} {size x y n : ℕ}
    (h : AkariGen.is_solvable layout size = true) (hx : x < size) (hy : y < size)
    (hn : cellAt layout x y = Cell.num n) :
    n ≤ count_adjacent_whites layout x y size := by
  unfold AkariGen.is_solvable at h
  rw [Bool.and_eq_true] at h
  have h2 := h.2
  rw [List.all_eq_true] at h2
  have h3 := h2 y (List.mem_range.mpr hy)
  rw [List.all_eq_true] at h3
  have h4 := h3 x (List.mem_range.mpr hx)
  unfold cellConstraintOK at h4
  rw [hn] at h4
  exact of_decide_eq_true h4

lemma mem_numberedCellsList {layout : List (List Cell)} {size x y n : ℕ}
    (hx : x < size) (hy : y < size) (hn : cellAt layout x y = Cell.num n) :
    ((x, y, n) : ℕ × ℕ × ℕ) ∈ numberedCellsList layout size := by
  unfold numberedCellsList
  rw [List.mem_filterMap]
  refine ⟨(y, x), mem_positions.mpr ⟨hy, hx⟩, ?_⟩
  simp [cellNumValue, hn]

lemma AkariGenAPI_is_solvable_capacity {layout : List (List Cell)} {size x y n : ℕ}
    (h : AkariGenAPI.is_solvable layout size = true) (hx : x < size) (hy : y < size)
    (hn : cellAt layout x y = Cell.num n) :
    n ≤ count_adjacent_whites layout x y size := by
  simp only [AkariGenAPI.is_solvable, Bool.and_eq_true] at h
  have hall := h.1.1.1.2
  rw [List.all_eq_true] at hall
  have hw := hall (x, y, n) (mem_numberedCellsList hx hy hn)
  simp only [Bool.and_eq_true, decide_eq_true_eq] at hw
  exact hw.1

lemma AkariGen_is_solvable_false {layout : List (List Cell)} {size x y n : ℕ}
    (hx : x < size) (hy : y < size) (hn : cellAt layout x y = Cell.num n)
    (hover : count_adjacent_whites layout x y size < n) :
    AkariGen.is_solvable layout size = false := by
  cases hs : AkariGen.is_solvable layout size
  · rfl
  · exact absurd (AkariGen_is_solvable_capacity hs hx hy hn) (Nat.not_le.mpr hover)

lemma AkariGenAPI_is_solvable_false {layout : List (List Cell)} {size x y n : ℕ}
    (hx : x < size) (hy : y < size) (hn : cellAt layout x y = Cell.num n)
    (hover : count_adjacent_whites layout x y size < n) :
    AkariGenAPI.is_solvable layout size = false := by
  cases hs : AkariGenAPI.is_solvable layout size
  · rfl
  · exact absurd (AkariGenAPI_is_solvable_capacity hs hx hy hn) (Nat.not_le.mpr hover)

lemma AkariGenAPI_is_solvable_wall_ratio {layout : List (List Cell)} {size : ℕ}
    (h : AkariGenAPI.is_solvable layout size = true) :
    5 * (size * size) ≤ 100 * countCells layout isWallCell ∧
    100 * countCells layout isWallCell ≤ 50 * (size * size) := by
  simp only [AkariGenAPI.is_solvable, Bool.and_eq_true, decide_eq_true_eq] at h
  exact h.1.2

lemma AkariGenAPI_quality_wall_ratio {layout : List (List Cell)} {size : ℕ} {d : String}
    (h : AkariGenAPI.validate_puzzle_quality layout size d = true) :
    15 * (size * size) ≤ 100 * countCells layout isWallCell ∧
    100 * countCells layout isWallCell ≤ 50 * (size * size) := by
  simp only [AkariGenAPI.validate_puzzle_quality, Bool.and_eq_true, decide_eq_true_eq] at h
  exact h.2

/-! ### What an accepted puzzle went through -/

lemma AkariGen_try_attempts_some {size : ℕ} {d : String} {o : ℕ → SamplerOracle} {p : Puzzle} :
    ∀ l, AkariGen.try_attempts size d o l = some p →
      is_valid_akari_layout p.layout size = true ∧
      AkariGen.is_solvable p.layout size = true ∧
      p.size = size ∧ p.difficulty = d := by
  intro l
  induction l with
  | nil => intro h; exact absurd h (by simp [AkariGen.try_attempts])
  | cons a rest ih =>
      intro h
      simp only [AkariGen.try_attempts] at h
      split at h
      · rename_i hc
        cases h
        rw [Bool.and_eq_true] at hc
        exact ⟨hc.1, hc.2, rfl, rfl⟩
      · exact ih h

lemma AkariGenAPI_try_attempts_some {size : ℕ} {d : String} {o : ℕ → SamplerOracle} {p : Puzzle} :
    ∀ l, AkariGenAPI.try_attempts size d o l = some p →
      is_valid_akari_layout p.layout size = true ∧
      AkariGenAPI.is_solvable p.layout size = true ∧
      AkariGenAPI.validate_puzzle_quality p.layout size d = true ∧
      p.size = size ∧ p.difficulty = d := by
  intro l
  induction l with
  | nil => intro h; exact absurd h (by simp [AkariGenAPI.try_attempts])
  | cons a rest ih =>
      intro h
      simp only [AkariGenAPI.try_attempts] at h
      split at h
      · rename_i hc
        cases h
        simp only [Bool.and_eq_true] at hc
        exact ⟨hc.1.1, hc.1.2, hc.2, rfl, rfl⟩
      · exact ih h

lemma AkariGen_generate_puzzle_fst (size : ℕ) (d : String) (o : ℕ → SamplerOracle) :
    (AkariGen.generate_puzzle size d o).1 =
      AkariGen.try_attempts size d o
        (List.range (AkariGen.difficulty_params d).maxAttempts) := by
  simp only [AkariGen.generate_puzzle]
  cases AkariGen.try_attempts size d o
      (List.range (AkariGen.difficulty_params d).maxAttempts) with
  | some q => rfl
  | none => rfl

lemma AkariGenAPI_generate_puzzle_fst (size : ℕ) (d : String) (o : ℕ → SamplerOracle) :
    (AkariGenAPI.generate_puzzle size d o).1 =
      AkariGenAPI.try_attempts size d o
        (List.range (AkariGenAPI.difficulty_params d).maxAttempts) := by
  simp only [AkariGenAPI.generate_puzzle]
  cases AkariGenAPI.try_attempts size d o
      (List.range (AkariGenAPI.difficulty_params d).maxAttempts) with
  | some q => rfl
  | none => rfl

lemma AkariGen_generate_puzzle_some {size : ℕ} {d : String} {o : ℕ → SamplerOracle} {p : Puzzle}
    (h : (AkariGen.generate_puzzle size d o).1 = some p) :
    is_valid_akari_layout p.layout size = true ∧
    AkariGen.is_solvable p.layout size = true ∧
    p.size = size ∧ p.difficulty = d := by
  rw [AkariGen_generate_puzzle_fst] at h
  exact AkariGen_try_attempts_some _ h

lemma AkariGenAPI_generate_puzzle_some {size : ℕ} {d : String} {o : ℕ → SamplerOracle} {p : Puzzle}
    (h : (AkariGenAPI.generate_puzzle size d o).1 = some p) :
    is_valid_akari_layout p.layout size = true ∧
    AkariGenAPI.is_solvable p.layout size = true ∧
    AkariGenAPI.validate_puzzle_quality p.layout size d = true ∧
    p.size = size ∧ p.difficulty = d := by
  rw [AkariGenAPI_generate_puzzle_fst] at h
  exact AkariGenAPI_try_attempts_some _ h

lemma AkariGen_generate_puzzle_none {size : ℕ} {d : String} {o : ℕ → SamplerOracle}
    (h : (AkariGen.generate_puzzle size d o).1 = none) :
    (AkariGen.generate_puzzle size d o).2 =
      ["Failed to generate " ++ d ++ " " ++ toString size ++ "x" ++ toString size ++
        " puzzle after " ++ toString (AkariGen.difficulty_params d).maxAttempts ++ " attempts"] := by
  rw [AkariGen_generate_puzzle_fst] at h
  simp only [AkariGen.generate_puzzle]
  rw [h]

lemma AkariGenAPI_generate_puzzle_none {size : ℕ} {d : String} {o : ℕ → SamplerOracle}
    (h : (AkariGenAPI.generate_puzzle size d o).1 = none) :
    (AkariGenAPI.generate_puzzle size d o).2 =
      ["Failed to generate " ++ d ++ " " ++ toString size ++ "x" ++ toString size ++
        " puzzle after " ++ toString (AkariGenAPI.difficulty_params d).maxAttempts ++ " attempts"] := by
  rw [AkariGenAPI_generate_puzzle_fst] at h
  simp only [AkariGenAPI.generate_puzzle]
  rw [h]

/-! ### The generation loop consumes only its attempt budget -/

lemma AkariGen_try_attempts_congr {size : ℕ} {d : String} {o o2 : ℕ → SamplerOracle} :
    ∀ l, (∀ a ∈ l, o a = o2 a) →
      AkariGen.try_attempts size d o l = AkariGen.try_attempts size d o2 l := by
  intro l
  induction l with
  | nil => intro _; rfl
  | cons a rest ih =>
      intro h
      simp only [AkariGen.try_attempts]
      rw [h a (List.mem_cons_self a rest), ih (fun b hb => h b (List.mem_cons_of_mem a hb))]

lemma AkariGenAPI_try_attempts_congr {size : ℕ} {d : String} {o o2 : ℕ → SamplerOracle} :
    ∀ l, (∀ a ∈ l, o a = o2 a) →
      AkariGenAPI.try_attempts size d o l = AkariGenAPI.try_attempts size d o2 l := by
  intro l
  induction l with
  | nil => intro _; rfl
  | cons a rest ih =>
      intro h
      simp only [AkariGenAPI.try_attempts]
      rw [h a (List.mem_cons_self a rest), ih (fun b hb => h b (List.mem_cons_of_mem a hb))]

lemma AkariGen_generate_puzzle_congr {size : ℕ} {d : String} {o o2 : ℕ → SamplerOracle}
    (h : ∀ a, a < (AkariGen.difficulty_params d).maxAttempts → o a = o2 a) :
    AkariGen.generate_puzzle size d o = AkariGen.generate_puzzle size d o2 := by
  simp only [AkariGen.generate_puzzle]
  rw [AkariGen_try_attempts_congr _ (fun a ha => h a (List.mem_range.mp ha))]

lemma AkariGenAPI_generate_puzzle_congr {size : ℕ} {d : String} {o o2 : ℕ → SamplerOracle}
    (h : ∀ a, a < (AkariGenAPI.difficulty_params d).maxAttempts → o a = o2 a) :
    AkariGenAPI.generate_puzzle size d o = AkariGenAPI.generate_puzzle size d o2 := by
  simp only [AkariGenAPI.generate_puzzle]
  rw [AkariGenAPI_try_attempts_congr _ (fun a ha => h a (List.mem_range.mp ha))]

/-! ### Counter arithmetic of the batch orchestrator -/

lemma batch_one_sum {sink : Puzzle → Bool} {size : ℕ} {d : String}
    {res : BatchResults} {pz : Option Puzzle} (hsink : ∀ q, sink q = true) :
    (AkariGen.batch_one sink size d res pz).totalGenerated +
      (AkariGen.batch_one sink size d res pz).failed =
    res.totalGenerated + res.failed + 1 := by
  cases pz with
  | none => simp [AkariGen.batch_one]; omega
  | some p => simp [AkariGen.batch_one, hsink p]; omega

lemma foldl_sum_step_gen {α : Type} (k : ℕ) (F : BatchResults → α → BatchResults)
    (hF : ∀ r a, (F r a).totalGenerated + (F r a).failed = r.totalGenerated + r.failed + k) :
    ∀ (l : List α) (res : BatchResults),
      (l.foldl F res).totalGenerated + (l.foldl F res).failed =
        res.totalGenerated + res.failed + l.length * k := by
  intro l
  induction l with
  | nil => intro res; simp
  | cons a rest ih =>
      intro res
      rw [List.foldl_cons, ih, hF, List.length_cons]
      ring

/-- With a sink that always succeeds, `failed` counts exactly the
generation failures, so the two counters sum to the iteration count. -/
lemma AkariGen_generate_batch_sum (sizes : List ℕ) (difficulties : List String)
    (count : ℕ) (O : ℕ → String → ℕ → ℕ → SamplerOracle) (sink : Puzzle → Bool)
    (hsink : ∀ q, sink q = true) :
    (AkariGen.generate_batch sizes difficulties count O sink).totalGenerated +
      (AkariGen.generate_batch sizes difficulties count O sink).failed =
      sizes.length * difficulties.length * count := by
  have hinner : ∀ (size : ℕ) (difficulty : String) (r2 : BatchResults),
      (((List.range count).foldl
          (fun res i => AkariGen.batch_one sink size difficulty res
            (AkariGen.generate_puzzle size difficulty (O size difficulty i)).1)
          { r2 with byDifficulty := setCounter r2.byDifficulty difficulty 0 }).totalGenerated +
        ((List.range count).foldl
          (fun res i => AkariGen.batch_one sink size difficulty res
            (AkariGen.generate_puzzle size difficulty (O size difficulty i)).1)
          { r2 with byDifficulty := setCounter r2.byDifficulty difficulty 0 }).failed) =
      r2.totalGenerated + r2.failed + count := by
    intro size difficulty r2
    have h := foldl_sum_step_gen 1
      (fun res i => AkariGen.batch_one sink size difficulty res
        (AkariGen.generate_puzzle size difficulty (O size difficulty i)).1)
      (fun _ _ => batch_one_sum hsink) (List.range count)
      { r2 with byDifficulty := setCounter r2.byDifficulty difficulty 0 }
    simpa using h
  have hmid : ∀ (size : ℕ) (r : BatchResults),
      ((difficulties.foldl
          (fun res difficulty =>
            (List.range count).foldl
              (fun res i => AkariGen.batch_one sink size difficulty res
                (AkariGen.generate_puzzle size difficulty (O size difficulty i)).1)
              { res with byDifficulty := setCounter res.byDifficulty difficulty 0 })
          { r with bySize := setCounter r.bySize size 0 }).totalGenerated +
        (difficulties.foldl
          (fun res difficulty =>
            (List.range count).foldl
              (fun res i => AkariGen.batch_one sink size difficulty res
                (AkariGen.generate_puzzle size difficulty (O size difficulty i)).1)
              { res with byDifficulty := setCounter res.byDifficulty difficulty 0 })
          { r with bySize := setCounter r.bySize size 0 }).failed) =
      r.totalGenerated + r.failed + difficulties.length * count := by
    intro size r
    have h := foldl_sum_step_gen count
      (fun res difficulty =>
        (List.range count).foldl
          (fun res i => AkariGen.batch_one sink size difficulty res
            (AkariGen.generate_puzzle size difficulty (O size difficulty i)).1)
          { res with byDifficulty := setCounter res.byDifficulty difficulty 0 })
      (fun r2 difficulty => hinner size difficulty r2) difficulties
      { r with bySize := setCounter r.bySize size 0 }
    simpa using h
  unfold AkariGen.generate_batch
  have h := foldl_sum_step_gen (difficulties.length * count)
    (fun res size =>
      difficulties.foldl
        (fun res difficulty =>
          (List.range count).foldl
            (fun res i => AkariGen.batch_one sink size difficulty res
              (AkariGen.generate_puzzle size difficulty (O size difficulty i)).1)
            { res with byDifficulty := setCounter res.byDifficulty difficulty 0 })
        { res with bySize := setCounter res.bySize size 0 })
    (fun r size => hmid size r) sizes
    { totalGenerated := 0, totalSaved := 0, failed := 0,
      bySize := fun _ => 0, byDifficulty := fun _ => 0 }
  simpa [Nat.mul_assoc] using h

/-! ### Concrete grids and oracles used by witnesses and counterexamples -/

/-- Oracle whose every coin is false: sampling yields the all-empty grid. -/
def allFalseOracle : SamplerOracle := ⟨fun _ _ => false, fun _ _ => false, fun _ _ => 0⟩

/-- Oracle whose every wall coin fires: sampling yields the all-wall grid. -/
def allWallOracle : SamplerOracle := ⟨fun _ _ => true, fun _ _ => false, fun _ _ => 0⟩

/-- Oracle replaying a target grid: the wall coin fires at its non-empty
cells, the number coin at its numbered cells, and every randint call
consumes entropy `pk`. -/
def oracleOf (g : List (List Cell)) (pk : ℕ) : SamplerOracle :=
  ⟨fun y x => !(isEmptyCell (cellAt g x y)),
   fun y x => isNumCell (cellAt g x y),
   fun _ _ => pk⟩

/-- A 3 × 3 grid with one numbered wall, accepted by the DB module. -/
def gridW3 : List (List Cell) :=
  [[Cell.num 1, Cell.empty, Cell.empty],
   [Cell.empty, Cell.empty, Cell.empty],
   [Cell.empty, Cell.empty, Cell.empty]]

def puzzleW3 : Puzzle := ⟨gridW3, generate_seed gridW3, 3, "easy"⟩

/-- A 2 × 2 grid with one numbered wall, reproducible by the API sampler. -/
def gridAPI2 : List (List Cell) :=
  [[Cell.num 1, Cell.empty], [Cell.empty, Cell.empty]]

/-- A 6 × 6 grid accepted by every gate of the API module for difficulty
hard, whose 14 plain walls put the plain-wall ratio at 14/36 while walls
plus numbered walls together cover 23/36 > 1/2 of the board. -/
def gridG4 : List (List Cell) :=
  [[Cell.num 1, Cell.empty, Cell.num 1, Cell.empty, Cell.num 1, Cell.empty],
   [Cell.empty, Cell.wall, Cell.wall, Cell.wall, Cell.wall, Cell.empty],
   [Cell.num 1, Cell.empty, Cell.num 1, Cell.empty, Cell.num 1, Cell.empty],
   [Cell.empty, Cell.wall, Cell.wall, Cell.wall, Cell.wall, Cell.empty],
   [Cell.num 1, Cell.empty, Cell.num 1, Cell.empty, Cell.num 1, Cell.empty],
   [Cell.wall, Cell.wall, Cell.wall, Cell.wall, Cell.wall, Cell.wall]]

def puzzleG4 : Puzzle := ⟨gridG4, generate_seed gridG4, 6, "hard"⟩

/-- Target of the DB sampler run that writes a numbered wall of value 0. -/
def gridZeroDB : List (List Cell) :=
  [[Cell.num 0, Cell.empty], [Cell.empty, Cell.empty]]

/-- A structurally legal grid whose numbered wall exceeds its capacity. -/
def gridOverCap : List (List Cell) :=
  [[Cell.num 2, Cell.wall], [Cell.wall, Cell.wall]]


/-! ### The fingerprint is a 12-character lowercase-hex string -/

lemma md5Digest_length (msg : List ℕ) : (md5Digest msg).length = 16 := by
  simp [md5Digest, wordLEBytes]

lemma md5HexChars_length (msg : List ℕ) : (md5HexChars msg).length = 32 := by
  have h : ∀ (bs : List ℕ), ((bs.map byteToHexChars).flatten).length = 2 * bs.length := by
    intro bs
    induction bs with
    | nil => simp
    | cons b bs ih =>
        simp only [List.map_cons, List.flatten_cons, List.length_append, ih,
          byteToHexChars, List.length_cons, List.length_nil]
        omega
  rw [md5HexChars, h, md5Digest_length]

lemma mem_hexDigitChars_getD (i : ℕ) (h : i < 16) :
    hexDigitChars.getD i '0' ∈ hexDigitChars := by
  have hl : i < hexDigitChars.length := h
  rw [List.getD_eq_getElem?_getD, List.getElem?_eq_getElem hl, Option.getD_some]
  exact List.getElem_mem hl

lemma mem_byteToHexChars {c : Char} {b : ℕ} (h : c ∈ byteToHexChars b) :
    c ∈ hexDigitChars := by
  simp only [byteToHexChars, List.mem_cons, List.not_mem_nil, or_false] at h
  rcases h with rfl | rfl
  · exact mem_hexDigitChars_getD _ (Nat.mod_lt _ (by norm_num))
  · exact mem_hexDigitChars_getD _ (Nat.mod_lt _ (by norm_num))

lemma mem_md5HexChars {c : Char} {msg : List ℕ} (h : c ∈ md5HexChars msg) :
    c ∈ hexDigitChars := by
  unfold md5HexChars at h
  rw [List.mem_flatten] at h
  obtain ⟨l, hl, hc⟩ := h
  rw [List.mem_map] at hl
  obtain ⟨b, _, rfl⟩ := hl
  exact mem_byteToHexChars hc

/-! ### The claims -/

/-- Claim C1: for every puzzle returned by `generate_puzzle` of either
module, every numbered wall cell with value `n` satisfies `n` at most the
count of orthogonally-adjacent empty cells of that cell in the returned
grid. -/
theorem claim_C1 (size : ℕ) (d : String) (o : ℕ → SamplerOracle) (p : Puzzle) (x y n : ℕ) :
    ((AkariGen.generate_puzzle size d o).1 = some p → x < size → y < size →
      cellAt p.layout x y = Cell.num n → n ≤ count_adjacent_whites p.layout x y size) ∧
    ((AkariGenAPI.generate_puzzle size d o).1 = some p → x < size → y < size →
      cellAt p.layout x y = Cell.num n → n ≤ count_adjacent_whites p.layout x y size) := by
  constructor
  · intro h hx hy hn
    exact AkariGen_is_solvable_capacity (AkariGen_generate_puzzle_some h).2.1 hx hy hn
  · intro h hx hy hn
    exact AkariGenAPI_is_solvable_capacity (AkariGenAPI_generate_puzzle_some h).2.1 hx hy hn

/-- Witness for C1: concrete accepted puzzles of both modules, with a
numbered wall of value 1 at the origin whose capacity bound holds. -/
theorem claim_C1_witness :
    1 ≤ count_adjacent_whites puzzleW3.layout 0 0 3 ∧
    1 ≤ count_adjacent_whites puzzleG4.layout 0 0 6 :=
  ⟨(claim_C1 3 "easy" (fun _ => oracleOf gridW3 1) puzzleW3 0 0 1).1
      (by decide) (by decide) (by decide) (by decide),
   (claim_C1 6 "hard" (fun _ => oracleOf gridG4 0) puzzleG4 0 0 1).2
      (by decide) (by decide) (by decide) (by decide)⟩

/-- Claim C2 counterexample: the layout sampler of `akari_generator.py`
draws its wall numbers from `randint(0, min(capacity, 4))`, so with wall
and number coins firing at cell (0,0) and entropy 0 it returns a grid
holding a numbered wall of value 0 — refuting that no grid returned by
`generate_random_layout` contains a `WALL_NUMBERED(0)` cell. -/
theorem claim_C2_counterexample :
    cellAt (AkariGen.generate_random_layout 2 (oracleOf gridZeroDB 0)) 0 0 = Cell.num 0 := by
  decide

/-- Claim C2 (amended): in `akari_generator_api.py` the converted number
is `randint(1, min(capacity, 4))`, hence always in `[1, min(capacity, 4)]`
and never 0; the sampler of `akari_generator.py` instead draws from
`[0, min(capacity, 4)]` and can emit 0 (see the counterexample). -/
theorem claim_C2 (size : ℕ) (o : SamplerOracle) (x y n : ℕ)
    (hx : x < size) (hy : y < size)
    (hn : cellAt (AkariGenAPI.generate_random_layout size o) x y = Cell.num n) :
    1 ≤ n ∧
    n ≤ min (count_adjacent_whites (AkariGenAPI.generate_random_layout size o) x y size) 4 := by
  rcases sampler_cells_api size o x y hx hy with h | h | ⟨m, hm, hlo, hb⟩
  · rw [hn] at h; exact Cell.noConfusion h
  · rw [hn] at h; exact Cell.noConfusion h
  · have hnm : Cell.num n = Cell.num m := hn.symm.trans hm
    injection hnm with hnm
    subst hnm
    exact ⟨hlo, hb⟩

/-- Witness for the amended C2 at a concrete API-sampler run that writes
a numbered wall of value 1 at the origin of a 2 × 2 grid. -/
theorem claim_C2_witness :
    1 ≤ 1 ∧
    1 ≤ min (count_adjacent_whites
      (AkariGenAPI.generate_random_layout 2 (oracleOf gridAPI2 0)) 0 0 2) 4 :=
  claim_C2 2 (oracleOf gridAPI2 0) 0 0 1 (by decide) (by decide) (by decide)

/-- Claim C3 counterexample: `is_valid_akari_layout` accepts a grid whose
numbered wall of value 2 has adjacency capacity 0, so the structural
validator does not enforce the capacity bound the claim attributes to it. -/
theorem claim_C3_counterexample :
    is_valid_akari_layout gridOverCap 2 = true ∧
    cellAt gridOverCap 0 0 = Cell.num 2 ∧
    count_adjacent_whites gridOverCap 0 0 2 = 0 := by
  decide

/-- Claim C3 (amended): the capacity bound is enforced by `is_solvable`
of both modules, not by `is_valid_akari_layout`: each returns false on
every grid holding a numbered wall whose value exceeds its capacity. -/
theorem claim_C3 (layout : List (List Cell)) (size x y n : ℕ)
    (hx : x < size) (hy : y < size) (hn : cellAt layout x y = Cell.num n)
    (hover : count_adjacent_whites layout x y size < n) :
    AkariGen.is_solvable layout size = false ∧
    AkariGenAPI.is_solvable layout size = false :=
  ⟨AkariGen_is_solvable_false hx hy hn hover, AkariGenAPI_is_solvable_false hx hy hn hover⟩

/-- Witness for the amended C3 at the over-capacity grid. -/
theorem claim_C3_witness :
    AkariGen.is_solvable gridOverCap 2 = false ∧
    AkariGenAPI.is_solvable gridOverCap 2 = false :=
  claim_C3 gridOverCap 2 0 0 2 (by decide) (by decide) (by decide) (by decide)

/-- Modelled from the spec: the count of WALL-kind cells, plain walls and
numbered walls together — what claim C4 says the wall-density gates put
in ratio to the total cell count. -/
def specWallKindCells (layout : List (List Cell)) : ℕ :=
  countCells layout isWallCell + countCells layout isNumCell

/-- Claim C4 counterexample: a puzzle returned by the API module for
difficulty hard (so accepted by every gate) in which plain walls and
numbered walls together cover 23 of 36 cells: the all-WALL-kind ratio is
23/36 > 0.5, outside both claimed bands, because the gates in fact divide
only the plain-wall count by the total. -/
theorem claim_C4_counterexample :
    (AkariGenAPI.generate_puzzle 6 "hard" (fun _ => oracleOf gridG4 0)).1 = some puzzleG4 ∧
    ¬(100 * specWallKindCells puzzleG4.layout ≤ 50 * (6 * 6)) := by
  constructor
  · decide
  · decide

/-- Claim C4 (amended): the wall-density gates of the API module compare
the count of plain `X` walls alone against the total cell count: for every
returned puzzle, `100 * wall_cells` lies within `[5 * size², 50 * size²]`
(the `is_solvable` gate, ratio band [0.05, 0.5]) and within
`[15 * size², 50 * size²]` (the quality gate, ratio band [0.15, 0.5]). -/
theorem claim_C4 (size : ℕ) (d : String) (o : ℕ → SamplerOracle) (p : Puzzle)
    (h : (AkariGenAPI.generate_puzzle size d o).1 = some p) :
    (5 * (size * size) ≤ 100 * countCells p.layout isWallCell ∧
      100 * countCells p.layout isWallCell ≤ 50 * (size * size)) ∧
    (15 * (size * size) ≤ 100 * countCells p.layout isWallCell ∧
      100 * countCells p.layout isWallCell ≤ 50 * (size * size)) := by
  obtain ⟨_, hsolv, hq, _, _⟩ := AkariGenAPI_generate_puzzle_some h
  exact ⟨AkariGenAPI_is_solvable_wall_ratio hsolv, AkariGenAPI_quality_wall_ratio hq⟩

/-- Witness for the amended C4 at the concrete accepted puzzle with 14
plain walls on 36 cells. -/
theorem claim_C4_witness :
    (5 * (6 * 6) ≤ 100 * countCells puzzleG4.layout isWallCell ∧
      100 * countCells puzzleG4.layout isWallCell ≤ 50 * (6 * 6)) ∧
    (15 * (6 * 6) ≤ 100 * countCells puzzleG4.layout isWallCell ∧
      100 * countCells puzzleG4.layout isWallCell ≤ 50 * (6 * 6)) :=
  claim_C4 6 "hard" (fun _ => oracleOf gridG4 0) puzzleG4 (by decide)

/-- Claim C5 (code bug): `generate_batch` re-initializes
`by_difficulty[difficulty] = 0` inside the sizes loop, so after a batch
over sizes [2, 3] with one always-accepted puzzle per combination the
returned `by_difficulty[easy]` is 1 — the count for the last size only —
while 2 puzzles of difficulty easy were generated (`by_size` is tallied
at the correct loop level and is 1 for each size). -/
theorem claim_C5_eval :
    (AkariGen.generate_batch [2, 3] ["easy"] 1 (fun _ _ _ _ => allFalseOracle)
      (fun _ => true)).totalGenerated = 2 ∧
    (AkariGen.generate_batch [2, 3] ["easy"] 1 (fun _ _ _ _ => allFalseOracle)
      (fun _ => true)).byDifficulty "easy" = 1 ∧
    (AkariGen.generate_batch [2, 3] ["easy"] 1 (fun _ _ _ _ => allFalseOracle)
      (fun _ => true)).bySize 2 = 1 ∧
    (AkariGen.generate_batch [2, 3] ["easy"] 1 (fun _ _ _ _ => allFalseOracle)
      (fun _ => true)).bySize 3 = 1 := by
  refine ⟨by decide, by decide, by decide, by decide⟩

/-- Claim C6 counterexample: in `akari_generator.py` a failed database
save also increments `failed`, so one iteration whose generation succeeds
but whose sink fails ends with `generated + failed = 2`, not the claimed
`len(sizes) * len(difficulties) * count_per_size = 1`. -/
theorem claim_C6_counterexample :
    (AkariGen.generate_batch [2] ["easy"] 1 (fun _ _ _ _ => allFalseOracle)
        (fun _ => false)).totalGenerated +
      (AkariGen.generate_batch [2] ["easy"] 1 (fun _ _ _ _ => allFalseOracle)
        (fun _ => false)).failed = 2 ∧
    ([2] : List ℕ).length * (["easy"] : List String).length * 1 = 1 := by
  refine ⟨by decide, by decide⟩

/-- Claim C6 (amended): in `akari_generator.py`, `failed` counts both
generation failures and database-save failures; only when the sink always
succeeds does `generated + failed` equal
`len(sizes) * len(difficulties) * count_per_size`. -/
theorem claim_C6 (sizes : List ℕ) (difficulties : List String) (count : ℕ)
    (O : ℕ → String → ℕ → ℕ → SamplerOracle) (sink : Puzzle → Bool)
    (hsink : ∀ q, sink q = true) :
    (AkariGen.generate_batch sizes difficulties count O sink).totalGenerated +
      (AkariGen.generate_batch sizes difficulties count O sink).failed =
      sizes.length * difficulties.length * count :=
  AkariGen_generate_batch_sum sizes difficulties count O sink hsink

/-- Witness for the amended C6: one-combination batch with an
always-succeeding sink. -/
theorem claim_C6_witness :
    (AkariGen.generate_batch [2] ["easy"] 1 (fun _ _ _ _ => allFalseOracle)
        (fun _ => true)).totalGenerated +
      (AkariGen.generate_batch [2] ["easy"] 1 (fun _ _ _ _ => allFalseOracle)
        (fun _ => true)).failed =
      ([2] : List ℕ).length * (["easy"] : List String).length * 1 :=
  claim_C6 [2] ["easy"] 1 (fun _ _ _ _ => allFalseOracle) (fun _ => true) (fun _ => rfl)

def puzzleBogusDB : Puzzle :=
  ⟨[[Cell.empty]], generate_seed [[Cell.empty]], 1, "bogus"⟩

def puzzleBogusAPI : Puzzle :=
  ⟨gridG4, generate_seed gridG4, 6, "bogus"⟩

/-- Claim C7 counterexample: called with the difficulty string bogus,
both `generate_puzzle` variants raise nothing and silently return a
puzzle labelled bogus (the parameter lookup falls back to the medium
entry). -/
theorem claim_C7_counterexample :
    ((AkariGen.generate_puzzle 1 "bogus" (fun _ => allFalseOracle)).1.map
      Puzzle.difficulty = some "bogus") ∧
    ((AkariGenAPI.generate_puzzle 6 "bogus" (fun _ => oracleOf gridG4 0)).1.map
      Puzzle.difficulty = some "bogus") := by
  refine ⟨by decide, by decide⟩

/-- Claim C7 (amended): a difficulty outside easy/medium/hard/expert does
not raise: `difficulty_params.get` falls back to the medium profile in
both modules, and any puzzle returned carries the invalid difficulty
string. -/
theorem claim_C7 (d : String) (size1 size2 : ℕ) (o1 o2 : ℕ → SamplerOracle)
    (p1 p2 : Puzzle)
    (h1 : d ≠ "easy") (h2 : d ≠ "medium") (h3 : d ≠ "hard") (h4 : d ≠ "expert") :
    AkariGen.difficulty_params d = AkariGen.difficulty_params "medium" ∧
    AkariGenAPI.difficulty_params d = AkariGenAPI.difficulty_params "medium" ∧
    ((AkariGen.generate_puzzle size1 d o1).1 = some p1 → p1.difficulty = d) ∧
    ((AkariGenAPI.generate_puzzle size2 d o2).1 = some p2 → p2.difficulty = d) := by
  refine ⟨?_, ?_, ?_, ?_⟩
  · unfold AkariGen.difficulty_params
    rw [if_neg h1, if_neg h2, if_neg h3, if_neg h4]
    decide
  · unfold AkariGenAPI.difficulty_params
    rw [if_neg h1, if_neg h2, if_neg h3, if_neg h4]
    decide
  · intro h
    exact (AkariGen_generate_puzzle_some h).2.2.2
  · intro h
    exact (AkariGenAPI_generate_puzzle_some h).2.2.2.2

/-- Witness for the amended C7 at the difficulty string bogus, with the
concrete puzzles the two modules return. -/
theorem claim_C7_witness :
    AkariGen.difficulty_params "bogus" = AkariGen.difficulty_params "medium" ∧
    AkariGenAPI.difficulty_params "bogus" = AkariGenAPI.difficulty_params "medium" ∧
    puzzleBogusDB.difficulty = "bogus" ∧
    puzzleBogusAPI.difficulty = "bogus" := by
  obtain ⟨a, b, c, e⟩ := claim_C7 "bogus" 1 6 (fun _ => allFalseOracle)
    (fun _ => oracleOf gridG4 0) puzzleBogusDB puzzleBogusAPI
    (by decide) (by decide) (by decide) (by decide)
  exact ⟨a, b, c (by decide), e (by decide)⟩

/-- Claim C8: `generate_puzzle` of both modules always terminates within
its difficulty-dependent attempt budget: the budget lies in [50, 300] and
scales monotonically over easy/medium/hard/expert; the result depends
only on the oracles of attempts below the budget (at most `max_attempts`
sampling attempts are consumed); and on exhaustion the result is `none`
together with exactly one warning naming the difficulty, the size and the
number of attempts made.  Termination itself is inherent: both embeddings
are total functions recursing over the finite attempt list. -/
theorem claim_C8 (size : ℕ) (d : String) (o o2 : ℕ → SamplerOracle) :
    (50 ≤ (AkariGen.difficulty_params d).maxAttempts ∧
      (AkariGen.difficulty_params d).maxAttempts ≤ 300) ∧
    (50 ≤ (AkariGenAPI.difficulty_params d).maxAttempts ∧
      (AkariGenAPI.difficulty_params d).maxAttempts ≤ 300) ∧
    ((AkariGen.difficulty_params "easy").maxAttempts ≤
        (AkariGen.difficulty_params "medium").maxAttempts ∧
      (AkariGen.difficulty_params "medium").maxAttempts ≤
        (AkariGen.difficulty_params "hard").maxAttempts ∧
      (AkariGen.difficulty_params "hard").maxAttempts ≤
        (AkariGen.difficulty_params "expert").maxAttempts) ∧
    ((AkariGenAPI.difficulty_params "easy").maxAttempts ≤
        (AkariGenAPI.difficulty_params "medium").maxAttempts ∧
      (AkariGenAPI.difficulty_params "medium").maxAttempts ≤
        (AkariGenAPI.difficulty_params "hard").maxAttempts ∧
      (AkariGenAPI.difficulty_params "hard").maxAttempts ≤
        (AkariGenAPI.difficulty_params "expert").maxAttempts) ∧
    ((∀ a, a < (AkariGen.difficulty_params d).maxAttempts → o a = o2 a) →
      AkariGen.generate_puzzle size d o = AkariGen.generate_puzzle size d o2) ∧
    ((∀ a, a < (AkariGenAPI.difficulty_params d).maxAttempts → o a = o2 a) →
      AkariGenAPI.generate_puzzle size d o = AkariGenAPI.generate_puzzle size d o2) ∧
    ((AkariGen.generate_puzzle size d o).1 = none →
      (AkariGen.generate_puzzle size d o).2 =
        ["Failed to generate " ++ d ++ " " ++ toString size ++ "x" ++ toString size ++
          " puzzle after " ++ toString (AkariGen.difficulty_params d).maxAttempts ++
          " attempts"]) ∧
    ((AkariGenAPI.generate_puzzle size d o).1 = none →
      (AkariGenAPI.generate_puzzle size d o).2 =
        ["Failed to generate " ++ d ++ " " ++ toString size ++ "x" ++ toString size ++
          " puzzle after " ++ toString (AkariGenAPI.difficulty_params d).maxAttempts ++
          " attempts"]) := by
  refine ⟨?_, ?_, by decide, by decide, ?_, ?_, ?_, ?_⟩
  · unfold AkariGen.difficulty_params
    split_ifs <;> exact ⟨by norm_num, by norm_num⟩
  · unfold AkariGenAPI.difficulty_params
    split_ifs <;> exact ⟨by norm_num, by norm_num⟩
  · exact AkariGen_generate_puzzle_congr
  · exact AkariGenAPI_generate_puzzle_congr
  · exact AkariGen_generate_puzzle_none
  · exact AkariGenAPI_generate_puzzle_none

/-- Witness for C8 at size 2 with an all-wall oracle, on which every
attempt of both modules is rejected, so the budget is exhausted and the
warning is logged. -/
theorem claim_C8_witness :
    ((50 ≤ (AkariGen.difficulty_params "easy").maxAttempts ∧
      (AkariGen.difficulty_params "easy").maxAttempts ≤ 300) ∧
    (50 ≤ (AkariGenAPI.difficulty_params "easy").maxAttempts ∧
      (AkariGenAPI.difficulty_params "easy").maxAttempts ≤ 300)) ∧
    (AkariGen.generate_puzzle 2 "easy" (fun _ => allWallOracle) =
      AkariGen.generate_puzzle 2 "easy" (fun _ => allWallOracle) ∧
    AkariGenAPI.generate_puzzle 2 "easy" (fun _ => allWallOracle) =
      AkariGenAPI.generate_puzzle 2 "easy" (fun _ => allWallOracle)) ∧
    ((AkariGen.generate_puzzle 2 "easy" (fun _ => allWallOracle)).2 =
      ["Failed to generate " ++ "easy" ++ " " ++ toString (2 : ℕ) ++ "x" ++ toString (2 : ℕ) ++
        " puzzle after " ++ toString (AkariGen.difficulty_params "easy").maxAttempts ++
        " attempts"] ∧
    (AkariGenAPI.generate_puzzle 2 "easy" (fun _ => allWallOracle)).2 =
      ["Failed to generate " ++ "easy" ++ " " ++ toString (2 : ℕ) ++ "x" ++ toString (2 : ℕ) ++
        " puzzle after " ++ toString (AkariGenAPI.difficulty_params "easy").maxAttempts ++
        " attempts"]) := by
  obtain ⟨a, b, _, _, f, g, h, i⟩ :=
    claim_C8 2 "easy" (fun _ => allWallOracle) (fun _ => allWallOracle)
  exact ⟨⟨a, b⟩, ⟨f (fun _ _ => rfl), g (fun _ _ => rfl)⟩, ⟨h (by decide), i (by decide)⟩⟩

/-- Claim C9: the fingerprint of a grid is computed by serializing the
grid as key-sorted canonical JSON, hashing it with MD5 (a 128-bit content
hash, embedded in full above) and keeping the first 12 hexdigest
characters; it is deterministic — equal grids give the identical string —
and the result is always 12 lowercase hexadecimal characters. -/
theorem claim_C9 (layout : List (List Cell)) :
    generate_seed layout = generate_seed layout ∧
    (generate_seed layout).length = 12 ∧
    (generate_seed layout).data.all (fun c => decide (c ∈ hexDigitChars)) = true := by
  refine ⟨rfl, ?_, ?_⟩
  · have h : (generate_seed layout).length =
        ((md5HexChars (strBytes (layoutToJson layout))).take 12).length := rfl
    rw [h, List.length_take, md5HexChars_length]
    decide
  · rw [List.all_eq_true]
    intro c hc
    have h : (generate_seed layout).data =
        (md5HexChars (strBytes (layoutToJson layout))).take 12 := rfl
    rw [h] at hc
    exact decide_eq_true (mem_md5HexChars (List.take_subset _ _ hc))

/-- Claim C10: for every size and every oracle (hence every density
parameter), both samplers return a `size × size` grid whose cells are all
empty, plain walls, or digit walls valued 0 to 4, with every numbered
value within its adjacency capacity; consequently `is_valid_akari_layout`
holds of every sampled grid and the structural gate never forces a retry. -/
theorem claim_C10 (size : ℕ) (o : SamplerOracle) (x y n : ℕ) :
    Shaped (AkariGen.generate_random_layout size o) size ∧
    Shaped (AkariGenAPI.generate_random_layout size o) size ∧
    is_valid_akari_layout (AkariGen.generate_random_layout size o) size = true ∧
    is_valid_akari_layout (AkariGenAPI.generate_random_layout size o) size = true ∧
    (x < size → y < size →
      cellSymbolOK (cellAt (AkariGen.generate_random_layout size o) x y) = true) ∧
    (x < size → y < size →
      cellSymbolOK (cellAt (AkariGenAPI.generate_random_layout size o) x y) = true) ∧
    (x < size → y < size →
      cellAt (AkariGen.generate_random_layout size o) x y = Cell.num n →
      n ≤ count_adjacent_whites (AkariGen.generate_random_layout size o) x y size) ∧
    (x < size → y < size →
      cellAt (AkariGenAPI.generate_random_layout size o) x y = Cell.num n →
      n ≤ count_adjacent_whites (AkariGenAPI.generate_random_layout size o) x y size) := by
  refine ⟨(db_sampler_inv size o).shaped, (api_sampler_inv size o).shaped,
    is_valid_sampler_db size o, is_valid_sampler_api size o, ?_, ?_, ?_, ?_⟩
  · intro hx hy
    rcases sampler_cells_db size o x y hx hy with h | h | ⟨m, hm, h4, _⟩
    · rw [h]; rfl
    · rw [h]; rfl
    · rw [hm]; simpa [cellSymbolOK] using h4
  · intro hx hy
    rcases sampler_cells_api size o x y hx hy with h | h | ⟨m, hm, _, h4⟩
    · rw [h]; rfl
    · rw [h]; rfl
    · rw [hm]; simpa [cellSymbolOK] using le_trans h4 (min_le_right _ _)
  · intro hx hy hn
    rcases sampler_cells_db size o x y hx hy with h | h | ⟨m, hm, _, hb⟩
    · rw [hn] at h; exact Cell.noConfusion h
    · rw [hn] at h; exact Cell.noConfusion h
    · have hnm : Cell.num n = Cell.num m := hn.symm.trans hm
      injection hnm with hnm
      subst hnm
      exact hb
  · intro hx hy hn
    rcases sampler_cells_api size o x y hx hy with h | h | ⟨m, hm, _, hb⟩
    · rw [hn] at h; exact Cell.noConfusion h
    · rw [hn] at h; exact Cell.noConfusion h
    · have hnm : Cell.num n = Cell.num m := hn.symm.trans hm
      injection hnm with hnm
      subst hnm
      exact le_trans hb (min_le_left _ _)

/-- Witness for C10 at concrete sampler runs of both modules, each
writing a numbered wall of value 1 at the origin. -/
theorem claim_C10_witness :
    cellSymbolOK (cellAt (AkariGen.generate_random_layout 3 (oracleOf gridW3 1)) 0 0) = true ∧
    cellSymbolOK (cellAt (AkariGenAPI.generate_random_layout 2 (oracleOf gridAPI2 0)) 0 0) = true ∧
    1 ≤ count_adjacent_whites (AkariGen.generate_random_layout 3 (oracleOf gridW3 1)) 0 0 3 ∧
    1 ≤ count_adjacent_whites (AkariGenAPI.generate_random_layout 2 (oracleOf gridAPI2 0)) 0 0 2 :=
  ⟨(claim_C10 3 (oracleOf gridW3 1) 0 0 1).2.2.2.2.1 (by decide) (by decide),
   (claim_C10 2 (oracleOf gridAPI2 0) 0 0 1).2.2.2.2.2.1 (by decide) (by decide),
   (claim_C10 3 (oracleOf gridW3 1) 0 0 1).2.2.2.2.2.2.1 (by decide) (by decide) (by decide),
   (claim_C10 2 (oracleOf gridAPI2 0) 0 0 1).2.2.2.2.2.2.2 (by decide) (by decide) (by decide)⟩
